import Mathlib

/-!
Verification of the Order Settlement & Ledger Consistency core of the
ecommerce-webapp repository.

The embedding models the client-side order-creation handlers
(`handleSubmit` in `src/components/Purchases.tsx` and
`src/components/Sales.tsx`) as pure state transformers over a snapshot of
the backing store, and the row-level security policies of the schema
migration as a decision function on roles and tables.

Monetary amounts and quantities are `numeric(15,2)` fixed-point decimals
in the store; they are modelled here as scaled integers (`Int`), so the
arithmetic of the handlers (sums of quantity * unit price, debt deltas)
is exact, matching the fixed-point semantics.  Row ids (uuids) are
modelled as `Nat`.  Columns not touched by any verified property
(notes, dates, created_by, contact fields) are omitted from the rows.

Fallible store writes are modelled by boolean oracles: the header insert
and the line-items insert each either succeed or fail; a failed insert
writes nothing (matching supabase `insert(...)` returning an error and
no row).  The stock and debt read-modify-write loops mirror the source:
a read by id (`find?`), a guarded update writing the newly computed
value back to the row with that id.
-/

/-- A row of `products`: id and the current stock quantity. -/
structure Product where
  id : Nat
  stock_quantity : Int
deriving Repr, DecidableEq

/-- A row of `suppliers` or `customers`: id and the current debt balance. -/
structure Counterparty where
  id : Nat
  debt_balance : Int
deriving Repr, DecidableEq

/-- An in-memory order line of the form state (`orderItems` in the
components): product reference, quantity and unit price. -/
structure OrderItem where
  product_id : Nat
  quantity : Int
  unit_price : Int
deriving Repr, DecidableEq

/-- A persisted row of `purchase_orders` (columns relevant to the
verified properties). -/
structure PurchaseOrderRow where
  id : Nat
  order_number : String
  supplier_id : Option Nat
  total_amount : Int
  paid_amount : Int
  status : String
deriving Repr, DecidableEq

/-- A persisted row of `sales_orders` (columns relevant to the verified
properties; sales orders additionally carry a discount). -/
structure SalesOrderRow where
  id : Nat
  order_number : String
  customer_id : Option Nat
  total_amount : Int
  paid_amount : Int
  discount : Int
  status : String
deriving Repr, DecidableEq

/-- A persisted row of `purchase_order_items` / `sales_order_items`. -/
structure OrderItemRow where
  order_id : Nat
  product_id : Nat
  quantity : Int
  unit_price : Int
  total_price : Int
deriving Repr, DecidableEq

/-- The snapshot of the backing store visible to one settlement. -/
structure StoreState where
  products : List Product
  suppliers : List Counterparty
  customers : List Counterparty
  purchase_orders : List PurchaseOrderRow
  purchase_order_items : List OrderItemRow
  sales_orders : List SalesOrderRow
  sales_order_items : List OrderItemRow
deriving Repr, DecidableEq

/-- Outcome of a `handleSubmit` run: which alert/return path was taken. -/
inductive SubmitOutcome where
  | emptyItems
  | insufficientStock
  | orderInsertError
  | itemsInsertError
  | ok
deriving Repr, DecidableEq

/-- `update({stock_quantity: v}).eq('id', pid)`: write stock `v` to every
product row whose id is `pid`. -/
def updateStock (ps : List Product) (pid : Nat) (v : Int) : List Product :=
  ps.map fun q => if q.id == pid then { q with stock_quantity := v } else q

/-- `update({debt_balance: v}).eq('id', cid)`: write debt `v` to every
counterparty row whose id is `cid`. -/
def updateDebt (cs : List Counterparty) (cid : Nat) (v : Int) : List Counterparty :=
  cs.map fun c => if c.id == cid then { c with debt_balance := v } else c

/-- One iteration of the stock loop of `Purchases.handleSubmit`: read the
product row by id; if present, write back `stock_quantity + quantity`; if
absent, skip the write. -/
def purchaseStockStep (acc : List Product) (it : OrderItem) : List Product :=
  match acc.find? (fun q => q.id == it.product_id) with
  | some product => updateStock acc it.product_id (product.stock_quantity + it.quantity)
  | none => acc

/-- The per-line stock loop of `Purchases.handleSubmit`. -/
def purchaseStockLoop (ps : List Product) (items : List OrderItem) : List Product :=
  items.foldl purchaseStockStep ps

/-- One iteration of the stock loop of `Sales.handleSubmit`: as for
purchases but writing back `stock_quantity - quantity`. -/
def salesStockStep (acc : List Product) (it : OrderItem) : List Product :=
  match acc.find? (fun q => q.id == it.product_id) with
  | some product => updateStock acc it.product_id (product.stock_quantity - it.quantity)
  | none => acc

/-- The per-line stock loop of `Sales.handleSubmit`. -/
def salesStockLoop (ps : List Product) (items : List OrderItem) : List Product :=
  items.foldl salesStockStep ps

/-- The debt-adjustment step shared by both handlers: if a counterparty
is selected (`if (formData.supplier_id)` / `if (formData.customer_id)`),
read its row; if present, write back
`debt_balance + (totalAmount - paidAmount)`. -/
def debtStep (cs : List Counterparty) (counterpartyId : Option Nat)
    (totalAmount paidAmount : Int) : List Counterparty :=
  match counterpartyId with
  | none => cs
  | some cid =>
    match cs.find? (fun c => c.id == cid) with
    | some cp => updateDebt cs cid (cp.debt_balance + (totalAmount - paidAmount))
    | none => cs

/-- The stock-availability scan at the top of `Sales.handleSubmit`: some
item has a product row in the loaded catalog whose stock is below the
requested quantity. -/
def hasStockShortfall (products : List Product) (items : List OrderItem) : Bool :=
  items.any fun it =>
    match products.find? (fun p => p.id == it.product_id) with
    | some product => decide (product.stock_quantity < it.quantity)
    | none => false

namespace Purchases

/-- The form state of the purchases modal (fields driving writes). -/
structure Form where
  supplier_id : Option Nat
  paid_amount : Int
deriving Repr, DecidableEq

/-- `calculateTotal` of Purchases.tsx:
`orderItems.reduce((sum, item) => sum + item.quantity * item.unit_price, 0)`. -/
def calculateTotal (orderItems : List OrderItem) : Int :=
  orderItems.foldl (fun sum item => sum + item.quantity * item.unit_price) 0

/-- The order number generated by `Purchases.handleSubmit`:
the template literal NH followed by `Date.now()`. -/
def orderNumberOf (now : Nat) : String :=
  "NH" ++ toString now

/-- `handleSubmit` of Purchases.tsx as a state transformer.  `now` is
`Date.now()`, `newId` the id the store assigns to the inserted header,
`orderInsertOk` / `itemsInsertOk` whether the two inserts succeed. -/
def handleSubmit (s : StoreState) (formData : Form) (orderItems : List OrderItem)
    (now newId : Nat) (orderInsertOk itemsInsertOk : Bool) :
    SubmitOutcome × StoreState :=
  if orderItems.isEmpty then
    (.emptyItems, s)
  else
    let orderNumber := orderNumberOf now
    let totalAmount := calculateTotal orderItems
    if orderInsertOk then
      let order : PurchaseOrderRow :=
        { id := newId, order_number := orderNumber,
          supplier_id := formData.supplier_id,
          total_amount := totalAmount, paid_amount := formData.paid_amount,
          status := "completed" }
      let s1 := { s with purchase_orders := s.purchase_orders ++ [order] }
      if itemsInsertOk then
        let items := orderItems.map fun item =>
          ({ order_id := newId, product_id := item.product_id,
             quantity := item.quantity, unit_price := item.unit_price,
             total_price := item.quantity * item.unit_price } : OrderItemRow)
        let s2 := { s1 with purchase_order_items := s1.purchase_order_items ++ items }
        let s3 := { s2 with products := purchaseStockLoop s2.products orderItems }
        let s4 := { s3 with
          suppliers := debtStep s3.suppliers formData.supplier_id totalAmount formData.paid_amount }
        (.ok, s4)
      else
        (.itemsInsertError, s1)
    else
      (.orderInsertError, s)

end Purchases

namespace Sales

/-- The form state of the sales modal (fields driving writes). -/
structure Form where
  customer_id : Option Nat
  paid_amount : Int
  discount : Int
deriving Repr, DecidableEq

/-- `calculateSubtotal` of Sales.tsx. -/
def calculateSubtotal (orderItems : List OrderItem) : Int :=
  orderItems.foldl (fun sum item => sum + item.quantity * item.unit_price) 0

/-- `calculateTotal` of Sales.tsx: subtotal minus the discount. -/
def calculateTotal (orderItems : List OrderItem) (discount : Int) : Int :=
  calculateSubtotal orderItems - discount

/-- The order number generated by `Sales.handleSubmit`:
the template literal BH followed by `Date.now()`. -/
def orderNumberOf (now : Nat) : String :=
  "BH" ++ toString now

/-- `handleSubmit` of Sales.tsx as a state transformer. -/
def handleSubmit (s : StoreState) (formData : Form) (orderItems : List OrderItem)
    (now newId : Nat) (orderInsertOk itemsInsertOk : Bool) :
    SubmitOutcome × StoreState :=
  if orderItems.isEmpty then
    (.emptyItems, s)
  else if hasStockShortfall s.products orderItems then
    (.insufficientStock, s)
  else
    let orderNumber := orderNumberOf now
    let totalAmount := calculateTotal orderItems formData.discount
    if orderInsertOk then
      let order : SalesOrderRow :=
        { id := newId, order_number := orderNumber,
          customer_id := formData.customer_id,
          total_amount := totalAmount, paid_amount := formData.paid_amount,
          discount := formData.discount, status := "completed" }
      let s1 := { s with sales_orders := s.sales_orders ++ [order] }
      if itemsInsertOk then
        let items := orderItems.map fun item =>
          ({ order_id := newId, product_id := item.product_id,
             quantity := item.quantity, unit_price := item.unit_price,
             total_price := item.quantity * item.unit_price } : OrderItemRow)
        let s2 := { s1 with sales_order_items := s1.sales_order_items ++ items }
        let s3 := { s2 with products := salesStockLoop s2.products orderItems }
        let s4 := { s3 with
          customers := debtStep s3.customers formData.customer_id totalAmount formData.paid_amount }
        (.ok, s4)
      else
        (.itemsInsertError, s1)
    else
      (.orderInsertError, s)

end Sales

/-- Caller roles, from the `profiles.role` enum. -/
inductive Role where
  | admin
  | manager
  | staff
deriving Repr, DecidableEq

/-- The tables guarded by row-level security policies in the schema
migration. -/
inductive DbTable where
  | products
  | categories
  | suppliers
  | customers
  | purchase_orders
  | purchase_order_items
  | sales_orders
  | sales_order_items
  | payments
  | cash_transactions
deriving Repr, DecidableEq

/-- The `role IN ('admin', 'manager')` test of the policy bodies. -/
def isAdminOrManager : Role → Bool
  | .admin => true
  | .manager => true
  | .staff => false

/-- The INSERT policies of the schema migration, table by table: the
WITH CHECK clause is `true` for customers, sales_orders and
sales_order_items, and the admin-or-manager profile test everywhere
else. -/
def canInsert (r : Role) (t : DbTable) : Bool :=
  match t with
  | .customers => true
  | .sales_orders => true
  | .sales_order_items => true
  | .products => isAdminOrManager r
  | .categories => isAdminOrManager r
  | .suppliers => isAdminOrManager r
  | .purchase_orders => isAdminOrManager r
  | .purchase_order_items => isAdminOrManager r
  | .payments => isAdminOrManager r
  | .cash_transactions => isAdminOrManager r

/-- Sum of the quantities of the lines of an order that reference the
product `pid` (the aggregate by which a settled order moves that
product's stock). -/
def sumQtyFor (pid : Nat) : List OrderItem → Int
  | [] => 0
  | it :: rest => (if it.product_id == pid then it.quantity else 0) + sumQtyFor pid rest

/-- Both stock loops, abstracted over how the new stock value is computed
from the current stock and the line quantity; proof infrastructure shared
by the purchase and the sales loop. -/
def stockLoopBy (g : Int → Int → Int) (ps : List Product) (items : List OrderItem) :
    List Product :=
  items.foldl
    (fun acc it =>
      match acc.find? (fun q => q.id == it.product_id) with
      | some product => updateStock acc it.product_id (g product.stock_quantity it.quantity)
      | none => acc)
    ps

/-- The stock accumulator realised by `stockLoopBy` on the rows of one
product: apply `g` once per line referencing that product. -/
def stockFoldFor (g : Int → Int → Int) (pid : Nat) (v : Int) : List OrderItem → Int
  | [] => v
  | it :: rest =>
    if it.product_id == pid then stockFoldFor g pid (g v it.quantity) rest
    else stockFoldFor g pid v rest

/-- A small concrete store used to instantiate the settled-order
theorems: three products, one supplier (debt 0), one customer
(debt 2000), no orders yet.  Stock and debt figures follow the worked
scenarios of the specification. -/
def demoState : StoreState :=
  { products := [⟨1, 0⟩, ⟨2, 5⟩, ⟨3, 7⟩],
    suppliers := [⟨10, 0⟩],
    customers := [⟨20, 2000⟩],
    purchase_orders := [],
    purchase_order_items := [],
    sales_orders := [],
    sales_order_items := [] }

/-! ### Row-lookup lemmas for the read-modify-write updates -/

theorem updateStock_cons (q : Product) (ps : List Product) (pid : Nat) (v : Int) :
    updateStock (q :: ps) pid v
      = (if q.id == pid then { q with stock_quantity := v } else q) :: updateStock ps pid v :=
  rfl

theorem updateStock_find_self (ps : List Product) (pid : Nat) (v : Int) :
    (updateStock ps pid v).find? (fun q => q.id == pid)
      = (ps.find? (fun q => q.id == pid)).map (fun q => { q with stock_quantity := v }) := by
  induction ps with
  | nil => rfl
  | cons q ps ih =>
    rw [updateStock_cons]
    cases hb : (q.id == pid) with
    | true =>
      rw [if_pos rfl]
      simp only [List.find?_cons, hb]
      rfl
    | false =>
      rw [if_neg (by simp)]
      simp only [List.find?_cons, hb]
      exact ih

theorem updateStock_find_other (ps : List Product) (pid pid' : Nat) (v : Int)
    (h : pid' ≠ pid) :
    (updateStock ps pid v).find? (fun q => q.id == pid')
      = ps.find? (fun q => q.id == pid') := by
  induction ps with
  | nil => rfl
  | cons q ps ih =>
    rw [updateStock_cons]
    cases hb : (q.id == pid) with
    | true =>
      have hq : q.id = pid := by simpa using hb
      have hne : (q.id == pid') = false := by
        simp only [hq, beq_eq_false_iff_ne]
        exact Ne.symm h
      rw [if_pos rfl]
      simp only [List.find?_cons, hne]
      exact ih
    | false =>
      rw [if_neg (by simp)]
      simp only [List.find?_cons]
      cases hb' : (q.id == pid') with
      | true => simp only [hb']
      | false =>
        simp only [hb']
        exact ih

theorem updateDebt_cons (c : Counterparty) (cs : List Counterparty) (cid : Nat) (v : Int) :
    updateDebt (c :: cs) cid v
      = (if c.id == cid then { c with debt_balance := v } else c) :: updateDebt cs cid v :=
  rfl

theorem updateDebt_find_self (cs : List Counterparty) (cid : Nat) (v : Int) :
    (updateDebt cs cid v).find? (fun c => c.id == cid)
      = (cs.find? (fun c => c.id == cid)).map (fun c => { c with debt_balance := v }) := by
  induction cs with
  | nil => rfl
  | cons c cs ih =>
    rw [updateDebt_cons]
    cases hb : (c.id == cid) with
    | true =>
      rw [if_pos rfl]
      simp only [List.find?_cons, hb]
      rfl
    | false =>
      rw [if_neg (by simp)]
      simp only [List.find?_cons, hb]
      exact ih

theorem debtStep_find (cs : List Counterparty) (cid : Nat) (cp : Counterparty)
    (total paid : Int) (h : cs.find? (fun c => c.id == cid) = some cp) :
    (debtStep cs (some cid) total paid).find? (fun c => c.id == cid)
      = some { cp with debt_balance := cp.debt_balance + (total - paid) } := by
  have hstep : debtStep cs (some cid) total paid
      = updateDebt cs cid (cp.debt_balance + (total - paid)) := by
    simp [debtStep, h]
  rw [hstep, updateDebt_find_self, h]
  rfl

/-! ### Characterisation of the stock loops -/

theorem stockLoopBy_cons (g : Int → Int → Int) (ps : List Product) (it : OrderItem)
    (rest : List OrderItem) :
    stockLoopBy g ps (it :: rest)
      = stockLoopBy g
          (match ps.find? (fun q => q.id == it.product_id) with
           | some product => updateStock ps it.product_id (g product.stock_quantity it.quantity)
           | none => ps)
          rest :=
  rfl

theorem stockLoopBy_find (g : Int → Int → Int) (items : List OrderItem) :
    ∀ (ps : List Product) (pid : Nat) (p : Product),
      ps.find? (fun q => q.id == pid) = some p →
      (stockLoopBy g ps items).find? (fun q => q.id == pid)
        = some { p with stock_quantity := stockFoldFor g pid p.stock_quantity items } := by
  induction items with
  | nil =>
    intro ps pid p hp
    simp only [stockLoopBy, List.foldl_nil, stockFoldFor]
    exact hp
  | cons it rest ih =>
    intro ps pid p hp
    by_cases hpid : it.product_id = pid
    · subst hpid
      rw [stockLoopBy_cons]
      have hstate :
          (match ps.find? (fun q => q.id == it.product_id) with
           | some product => updateStock ps it.product_id (g product.stock_quantity it.quantity)
           | none => ps)
            = updateStock ps it.product_id (g p.stock_quantity it.quantity) := by
        rw [hp]
      rw [hstate]
      have hp2 : (updateStock ps it.product_id (g p.stock_quantity it.quantity)).find?
          (fun q => q.id == it.product_id)
            = some { p with stock_quantity := g p.stock_quantity it.quantity } := by
        rw [updateStock_find_self, hp]
        rfl
      rw [ih _ _ _ hp2]
      simp [stockFoldFor]
    · cases hfind : ps.find? (fun q => q.id == it.product_id) with
      | some q =>
        rw [stockLoopBy_cons]
        have hstate :
            (match ps.find? (fun q => q.id == it.product_id) with
             | some product => updateStock ps it.product_id (g product.stock_quantity it.quantity)
             | none => ps)
              = updateStock ps it.product_id (g q.stock_quantity it.quantity) := by
          rw [hfind]
        rw [hstate]
        have hp2 : (updateStock ps it.product_id (g q.stock_quantity it.quantity)).find?
            (fun r => r.id == pid) = some p := by
          rw [updateStock_find_other _ _ _ _ (fun he => hpid he.symm)]
          exact hp
        rw [ih _ _ _ hp2]
        simp [stockFoldFor, hpid]
      | none =>
        rw [stockLoopBy_cons]
        have hstate :
            (match ps.find? (fun q => q.id == it.product_id) with
             | some product => updateStock ps it.product_id (g product.stock_quantity it.quantity)
             | none => ps)
              = ps := by
          rw [hfind]
        rw [hstate]
        rw [ih _ _ _ hp]
        simp [stockFoldFor, hpid]

theorem stockFoldFor_add (pid : Nat) (items : List OrderItem) :
    ∀ v : Int, stockFoldFor (fun a b => a + b) pid v items = v + sumQtyFor pid items := by
  induction items with
  | nil =>
    intro v
    simp [stockFoldFor, sumQtyFor]
  | cons it rest ih =>
    intro v
    cases hb : (it.product_id == pid) with
    | true =>
      simp only [stockFoldFor, sumQtyFor, hb, if_pos]
      rw [ih]
      ring
    | false =>
      have hf : ¬ (false = true) := by simp
      simp only [stockFoldFor, sumQtyFor, hb, if_neg hf]
      rw [ih]
      ring

theorem stockFoldFor_sub (pid : Nat) (items : List OrderItem) :
    ∀ v : Int, stockFoldFor (fun a b => a - b) pid v items = v - sumQtyFor pid items := by
  induction items with
  | nil =>
    intro v
    simp [stockFoldFor, sumQtyFor]
  | cons it rest ih =>
    intro v
    cases hb : (it.product_id == pid) with
    | true =>
      simp only [stockFoldFor, sumQtyFor, hb, if_pos]
      rw [ih]
      ring
    | false =>
      have hf : ¬ (false = true) := by simp
      simp only [stockFoldFor, sumQtyFor, hb, if_neg hf]
      rw [ih]
      ring

theorem purchaseStockLoop_eq_loopBy (ps : List Product) (items : List OrderItem) :
    purchaseStockLoop ps items = stockLoopBy (fun a b => a + b) ps items :=
  rfl

theorem salesStockLoop_eq_loopBy (ps : List Product) (items : List OrderItem) :
    salesStockLoop ps items = stockLoopBy (fun a b => a - b) ps items :=
  rfl

theorem purchaseStockLoop_find (items : List OrderItem) (ps : List Product)
    (pid : Nat) (p : Product) (hp : ps.find? (fun q => q.id == pid) = some p) :
    (purchaseStockLoop ps items).find? (fun q => q.id == pid)
      = some { p with stock_quantity := p.stock_quantity + sumQtyFor pid items } := by
  rw [purchaseStockLoop_eq_loopBy, stockLoopBy_find (fun a b => a + b) items ps pid p hp,
    stockFoldFor_add]

theorem salesStockLoop_find (items : List OrderItem) (ps : List Product)
    (pid : Nat) (p : Product) (hp : ps.find? (fun q => q.id == pid) = some p) :
    (salesStockLoop ps items).find? (fun q => q.id == pid)
      = some { p with stock_quantity := p.stock_quantity - sumQtyFor pid items } := by
  rw [salesStockLoop_eq_loopBy, stockLoopBy_find (fun a b => a - b) items ps pid p hp,
    stockFoldFor_sub]

/-! ### The order total as a sum over lines -/

theorem foldl_lineTotal_sum (l : List OrderItem) :
    ∀ acc : Int,
      l.foldl (fun sum item => sum + item.quantity * item.unit_price) acc
        = acc + (l.map (fun item => item.quantity * item.unit_price)).sum := by
  induction l with
  | nil =>
    intro acc
    simp
  | cons it l ih =>
    intro acc
    rw [List.foldl_cons, ih, List.map_cons, List.sum_cons]
    ring

theorem purchases_calculateTotal_eq_sum (items : List OrderItem) :
    Purchases.calculateTotal items
      = (items.map (fun item => item.quantity * item.unit_price)).sum := by
  unfold Purchases.calculateTotal
  rw [foldl_lineTotal_sum]
  ring

theorem sales_calculateSubtotal_eq_sum (items : List OrderItem) :
    Sales.calculateSubtotal items
      = (items.map (fun item => item.quantity * item.unit_price)).sum := by
  unfold Sales.calculateSubtotal
  rw [foldl_lineTotal_sum]
  ring

/-! ### Run lemmas: the handlers on each control path -/

theorem purchases_handleSubmit_ok (s : StoreState) (formData : Purchases.Form)
    (orderItems : List OrderItem) (now newId : Nat)
    (hne : orderItems.isEmpty = false) :
    Purchases.handleSubmit s formData orderItems now newId true true
      = (.ok,
         { products := purchaseStockLoop s.products orderItems,
           suppliers := debtStep s.suppliers formData.supplier_id
             (Purchases.calculateTotal orderItems) formData.paid_amount,
           customers := s.customers,
           purchase_orders := s.purchase_orders ++
             [{ id := newId, order_number := Purchases.orderNumberOf now,
                supplier_id := formData.supplier_id,
                total_amount := Purchases.calculateTotal orderItems,
                paid_amount := formData.paid_amount, status := "completed" }],
           purchase_order_items := s.purchase_order_items ++
             orderItems.map (fun item =>
               ({ order_id := newId, product_id := item.product_id,
                  quantity := item.quantity, unit_price := item.unit_price,
                  total_price := item.quantity * item.unit_price } : OrderItemRow)),
           sales_orders := s.sales_orders,
           sales_order_items := s.sales_order_items }) := by
  unfold Purchases.handleSubmit
  simp [hne]

theorem sales_handleSubmit_ok (s : StoreState) (formData : Sales.Form)
    (orderItems : List OrderItem) (now newId : Nat)
    (hne : orderItems.isEmpty = false)
    (hsf : hasStockShortfall s.products orderItems = false) :
    Sales.handleSubmit s formData orderItems now newId true true
      = (.ok,
         { products := salesStockLoop s.products orderItems,
           suppliers := s.suppliers,
           customers := debtStep s.customers formData.customer_id
             (Sales.calculateTotal orderItems formData.discount) formData.paid_amount,
           purchase_orders := s.purchase_orders,
           purchase_order_items := s.purchase_order_items,
           sales_orders := s.sales_orders ++
             [{ id := newId, order_number := Sales.orderNumberOf now,
                customer_id := formData.customer_id,
                total_amount := Sales.calculateTotal orderItems formData.discount,
                paid_amount := formData.paid_amount,
                discount := formData.discount, status := "completed" }],
           sales_order_items := s.sales_order_items ++
             orderItems.map (fun item =>
               ({ order_id := newId, product_id := item.product_id,
                  quantity := item.quantity, unit_price := item.unit_price,
                  total_price := item.quantity * item.unit_price } : OrderItemRow)) }) := by
  unfold Sales.handleSubmit
  simp [hne, hsf]

theorem purchases_handleSubmit_headerFail (s : StoreState) (formData : Purchases.Form)
    (orderItems : List OrderItem) (now newId : Nat) (itemsInsertOk : Bool)
    (hne : orderItems.isEmpty = false) :
    Purchases.handleSubmit s formData orderItems now newId false itemsInsertOk
      = (.orderInsertError, s) := by
  unfold Purchases.handleSubmit
  simp [hne]

theorem sales_handleSubmit_headerFail (s : StoreState) (formData : Sales.Form)
    (orderItems : List OrderItem) (now newId : Nat) (itemsInsertOk : Bool)
    (hne : orderItems.isEmpty = false)
    (hsf : hasStockShortfall s.products orderItems = false) :
    Sales.handleSubmit s formData orderItems now newId false itemsInsertOk
      = (.orderInsertError, s) := by
  unfold Sales.handleSubmit
  simp [hne, hsf]

theorem sales_handleSubmit_shortfall (s : StoreState) (formData : Sales.Form)
    (orderItems : List OrderItem) (now newId : Nat) (orderInsertOk itemsInsertOk : Bool)
    (hne : orderItems.isEmpty = false)
    (hsf : hasStockShortfall s.products orderItems = true) :
    Sales.handleSubmit s formData orderItems now newId orderInsertOk itemsInsertOk
      = (.insufficientStock, s) := by
  unfold Sales.handleSubmit
  simp [hne, hsf]

/-! ### Claims -/

/-- C1: For every order settled with a counterparty selected, the
counterparty's debt balance after settlement equals its balance before
settlement plus the unpaid remainder (total_amount - paid_amount):
supplier debt increases by the unpaid remainder of a purchase order,
customer debt by the unpaid remainder of a sales order. -/
theorem claim1_debt_delta_on_settlement
    (s : StoreState) (pform : Purchases.Form) (sform : Sales.Form)
    (pitems sitems : List OrderItem) (now newId : Nat)
    (sid cid : Nat) (sup cust : Counterparty)
    (hpne : pitems.isEmpty = false)
    (hsne : sitems.isEmpty = false)
    (hsf : hasStockShortfall s.products sitems = false)
    (hpsel : pform.supplier_id = some sid)
    (hssel : sform.customer_id = some cid)
    (hsup : s.suppliers.find? (fun c => c.id == sid) = some sup)
    (hcust : s.customers.find? (fun c => c.id == cid) = some cust) :
    ((Purchases.handleSubmit s pform pitems now newId true true).2.suppliers.find?
        (fun c => c.id == sid)
      = some { sup with debt_balance :=
          sup.debt_balance + (Purchases.calculateTotal pitems - pform.paid_amount) })
    ∧
    ((Sales.handleSubmit s sform sitems now newId true true).2.customers.find?
        (fun c => c.id == cid)
      = some { cust with debt_balance :=
          cust.debt_balance
            + (Sales.calculateTotal sitems sform.discount - sform.paid_amount) }) := by
  constructor
  · rw [purchases_handleSubmit_ok s pform pitems now newId hpne, hpsel]
    exact debtStep_find _ _ _ _ _ hsup
  · rw [sales_handleSubmit_ok s sform sitems now newId hsne hsf, hssel]
    exact debtStep_find _ _ _ _ _ hcust

/-- Witness for C1, following the worked scenarios of the specification:
a purchase of 10 units at 1000 with 5000 paid moves the supplier's debt
from 0 to 5000; a sale of 2 units at 500 with discount 100 and 900 paid
leaves the customer's debt at 2000. -/
theorem claim1_debt_delta_on_settlement_witness :
    ((Purchases.handleSubmit demoState ⟨some 10, 5000⟩ [⟨1, 10, 1000⟩] 17 101 true
        true).2.suppliers.find? (fun c => c.id == 10) = some ⟨10, 5000⟩)
    ∧
    ((Sales.handleSubmit demoState ⟨some 20, 900, 100⟩ [⟨2, 2, 500⟩] 17 101 true
        true).2.customers.find? (fun c => c.id == 20) = some ⟨20, 2000⟩) := by
  have h := claim1_debt_delta_on_settlement demoState ⟨some 10, 5000⟩ ⟨some 20, 900, 100⟩
    [⟨1, 10, 1000⟩] [⟨2, 2, 500⟩] 17 101 10 20 ⟨10, 0⟩ ⟨20, 2000⟩
    (by decide) (by decide) (by decide) rfl rfl (by decide) (by decide)
  refine ⟨?_, ?_⟩
  · rw [h.1]
    decide
  · rw [h.2]
    decide

/-- C2: For every settled purchase order and every product referenced by
its lines, the product's stock_quantity after settlement equals its
stock_quantity before settlement plus the quantity of each line
referencing it, with the increments summed correctly when the same
product appears in multiple lines of the same order. -/
theorem claim2_purchase_stock_increment
    (s : StoreState) (formData : Purchases.Form) (orderItems : List OrderItem)
    (now newId pid : Nat) (p : Product)
    (hne : orderItems.isEmpty = false)
    (hp : s.products.find? (fun q => q.id == pid) = some p) :
    (Purchases.handleSubmit s formData orderItems now newId true true).1 = SubmitOutcome.ok
    ∧ (Purchases.handleSubmit s formData orderItems now newId true true).2.products.find?
        (fun q => q.id == pid)
      = some { p with stock_quantity := p.stock_quantity + sumQtyFor pid orderItems } := by
  rw [purchases_handleSubmit_ok s formData orderItems now newId hne]
  exact ⟨rfl, purchaseStockLoop_find orderItems s.products pid p hp⟩

/-- Witness for C2: a purchase with two lines on the same product
(quantities 2 and 5) raises that product's stock from 7 to 14. -/
theorem claim2_purchase_stock_increment_witness :
    (Purchases.handleSubmit demoState ⟨some 10, 0⟩ [⟨3, 2, 10⟩, ⟨3, 5, 20⟩] 18 103 true
        true).1 = SubmitOutcome.ok
    ∧ (Purchases.handleSubmit demoState ⟨some 10, 0⟩ [⟨3, 2, 10⟩, ⟨3, 5, 20⟩] 18 103 true
        true).2.products.find? (fun q => q.id == 3) = some ⟨3, 14⟩ := by
  have h := claim2_purchase_stock_increment demoState ⟨some 10, 0⟩ [⟨3, 2, 10⟩, ⟨3, 5, 20⟩]
    18 103 3 ⟨3, 7⟩ (by decide) (by decide)
  refine ⟨h.1, ?_⟩
  rw [h.2]
  decide

/-- C3: For every settled sales order, each referenced product's
stock_quantity decreases by the line quantity (summed over the lines
referencing it); and for every sales order draft containing a line whose
quantity exceeds that product's current stock_quantity, composition is
rejected before settlement with no writes performed. -/
theorem claim3_sales_stock_decrement_and_shortfall_reject :
    (∀ (s : StoreState) (formData : Sales.Form) (orderItems : List OrderItem)
       (now newId pid : Nat) (p : Product),
       orderItems.isEmpty = false →
       hasStockShortfall s.products orderItems = false →
       s.products.find? (fun q => q.id == pid) = some p →
       (Sales.handleSubmit s formData orderItems now newId true true).1 = SubmitOutcome.ok
       ∧ (Sales.handleSubmit s formData orderItems now newId true true).2.products.find?
           (fun q => q.id == pid)
         = some { p with stock_quantity := p.stock_quantity - sumQtyFor pid orderItems })
    ∧
    (∀ (s : StoreState) (formData : Sales.Form) (orderItems : List OrderItem)
       (now newId : Nat) (orderInsertOk itemsInsertOk : Bool) (it : OrderItem) (p : Product),
       it ∈ orderItems →
       s.products.find? (fun q => q.id == it.product_id) = some p →
       p.stock_quantity < it.quantity →
       Sales.handleSubmit s formData orderItems now newId orderInsertOk itemsInsertOk
         = (.insufficientStock, s)) := by
  constructor
  · intro s formData orderItems now newId pid p hne hsf hp
    rw [sales_handleSubmit_ok s formData orderItems now newId hne hsf]
    exact ⟨rfl, salesStockLoop_find orderItems s.products pid p hp⟩
  · intro s formData orderItems now newId orderInsertOk itemsInsertOk it p hmem hp hlt
    have hne : orderItems.isEmpty = false := by
      cases orderItems with
      | nil => cases hmem
      | cons x xs => rfl
    have hsf : hasStockShortfall s.products orderItems = true := by
      unfold hasStockShortfall
      rw [List.any_eq_true]
      refine ⟨it, hmem, ?_⟩
      rw [hp]
      exact decide_eq_true hlt
    exact sales_handleSubmit_shortfall s formData orderItems now newId
      orderInsertOk itemsInsertOk hne hsf

/-- Witness for C3: selling 2 units of the product with stock 5 leaves
stock 3; asking for 6 units with stock 5 is rejected with no writes. -/
theorem claim3_sales_stock_decrement_and_shortfall_reject_witness :
    ((Sales.handleSubmit demoState ⟨none, 0, 0⟩ [⟨2, 2, 500⟩] 19 104 true
        true).2.products.find? (fun q => q.id == 2) = some ⟨2, 3⟩)
    ∧ (Sales.handleSubmit demoState ⟨none, 0, 0⟩ [⟨2, 6, 500⟩] 19 104 true true
        = (.insufficientStock, demoState)) := by
  refine ⟨?_, ?_⟩
  · have h := claim3_sales_stock_decrement_and_shortfall_reject.1 demoState ⟨none, 0, 0⟩
      [⟨2, 2, 500⟩] 19 104 2 ⟨2, 5⟩ (by decide) (by decide) (by decide)
    rw [h.2]
    decide
  · exact claim3_sales_stock_decrement_and_shortfall_reject.2 demoState ⟨none, 0, 0⟩
      [⟨2, 6, 500⟩] 19 104 true true ⟨2, 6, 500⟩ ⟨2, 5⟩ (by decide) (by decide) (by decide)

/-- C4: For every valid order draft, the persisted total_amount equals
the sum over lines of quantity times unit price, minus the discount for
a sales order (no discount is subtracted for a purchase order), exactly
(integer fixed-point arithmetic). -/
theorem claim4_total_amount_exact
    (s : StoreState) (pform : Purchases.Form) (sform : Sales.Form)
    (pitems sitems : List OrderItem) (now newId : Nat)
    (hpne : pitems.isEmpty = false)
    (hsne : sitems.isEmpty = false)
    (hsf : hasStockShortfall s.products sitems = false) :
    ((Purchases.handleSubmit s pform pitems now newId true true).2.purchase_orders.getLast?).map
        PurchaseOrderRow.total_amount
      = some ((pitems.map (fun item => item.quantity * item.unit_price)).sum)
    ∧
    ((Sales.handleSubmit s sform sitems now newId true true).2.sales_orders.getLast?).map
        SalesOrderRow.total_amount
      = some ((sitems.map (fun item => item.quantity * item.unit_price)).sum - sform.discount) := by
  constructor
  · rw [purchases_handleSubmit_ok s pform pitems now newId hpne]
    show ((s.purchase_orders ++ [_]).getLast?).map PurchaseOrderRow.total_amount = _
    rw [List.getLast?_concat]
    simp only [Option.map_some']
    rw [purchases_calculateTotal_eq_sum]
  · rw [sales_handleSubmit_ok s sform sitems now newId hsne hsf]
    show ((s.sales_orders ++ [_]).getLast?).map SalesOrderRow.total_amount = _
    rw [List.getLast?_concat]
    simp only [Option.map_some']
    show some (Sales.calculateTotal sitems sform.discount) = _
    unfold Sales.calculateTotal
    rw [sales_calculateSubtotal_eq_sum]

/-- Witness for C4: a purchase line 10 x 1000 persists total 10000; a
sale line 2 x 500 with discount 100 persists total 900. -/
theorem claim4_total_amount_exact_witness :
    ((Purchases.handleSubmit demoState ⟨some 10, 5000⟩ [⟨1, 10, 1000⟩] 20 105 true
        true).2.purchase_orders.getLast?).map PurchaseOrderRow.total_amount = some 10000
    ∧
    ((Sales.handleSubmit demoState ⟨some 20, 900, 100⟩ [⟨2, 2, 500⟩] 20 105 true
        true).2.sales_orders.getLast?).map SalesOrderRow.total_amount = some 900 := by
  have h := claim4_total_amount_exact demoState ⟨some 10, 5000⟩ ⟨some 20, 900, 100⟩
    [⟨1, 10, 1000⟩] [⟨2, 2, 500⟩] 20 105 (by decide) (by decide) (by decide)
  refine ⟨?_, ?_⟩
  · rw [h.1]
    decide
  · rw [h.2]
    decide

/-- C5: If persisting the order header fails, settlement stops with a
persistence error and performs no further steps: no order lines are
inserted, and every product's stock_quantity and every counterparty's
debt_balance are unchanged (the resulting state is the initial state). -/
theorem claim5_header_persist_failure_no_writes
    (s : StoreState) (pform : Purchases.Form) (sform : Sales.Form)
    (pitems sitems : List OrderItem) (now newId : Nat) (itemsInsertOk : Bool)
    (hpne : pitems.isEmpty = false)
    (hsne : sitems.isEmpty = false)
    (hsf : hasStockShortfall s.products sitems = false) :
    Purchases.handleSubmit s pform pitems now newId false itemsInsertOk
      = (.orderInsertError, s)
    ∧ Sales.handleSubmit s sform sitems now newId false itemsInsertOk
      = (.orderInsertError, s) :=
  ⟨purchases_handleSubmit_headerFail s pform pitems now newId itemsInsertOk hpne,
   sales_handleSubmit_headerFail s sform sitems now newId itemsInsertOk hsne hsf⟩

/-- Witness for C5: with the header insert failing, both handlers report
the persistence error and leave the demo store exactly as it was. -/
theorem claim5_header_persist_failure_no_writes_witness :
    Purchases.handleSubmit demoState ⟨some 10, 0⟩ [⟨1, 4, 9⟩] 23 106 false true
      = (.orderInsertError, demoState)
    ∧ Sales.handleSubmit demoState ⟨some 20, 0, 0⟩ [⟨2, 1, 9⟩] 23 106 false true
      = (.orderInsertError, demoState) :=
  claim5_header_persist_failure_no_writes demoState ⟨some 10, 0⟩ ⟨some 20, 0, 0⟩
    [⟨1, 4, 9⟩] [⟨2, 1, 9⟩] 23 106 true (by decide) (by decide) (by decide)

/-- C6 counterexample: a sales draft whose single line references
product id 99 (absent from the catalog) with quantity -1 is not
rejected: the handler reports success and the store is changed (an
order header and line are persisted). -/
theorem claim6_counterexample :
    (Sales.handleSubmit demoState ⟨none, 0, 0⟩ [⟨99, -1, 10⟩] 21 107 true true).1
        = SubmitOutcome.ok
    ∧ (Sales.handleSubmit demoState ⟨none, 0, 0⟩ [⟨99, -1, 10⟩] 21 107 true true).2
        ≠ demoState := by
  decide

/-- C6 amended: order composition rejects a draft with a validation
error, and no writes, exactly when the line list is empty; a nonempty
draft whose lines have non-positive quantities or reference productIds
absent from the catalog is not rejected and settles normally (for a
sales draft, provided no line hits the stock-shortfall check; for an
absent product the stock write is silently skipped). -/
theorem claim6_amended_rejection_exactly_empty
    (s : StoreState) (pform : Purchases.Form) (sform : Sales.Form)
    (pitems sitems : List OrderItem) (now newId : Nat)
    (orderInsertOk itemsInsertOk : Bool)
    (hpne : pitems.isEmpty = false)
    (hsne : sitems.isEmpty = false)
    (hsf : hasStockShortfall s.products sitems = false) :
    Purchases.handleSubmit s pform [] now newId orderInsertOk itemsInsertOk
      = (.emptyItems, s)
    ∧ Sales.handleSubmit s sform [] now newId orderInsertOk itemsInsertOk
      = (.emptyItems, s)
    ∧ (Purchases.handleSubmit s pform pitems now newId true true).1 = SubmitOutcome.ok
    ∧ (Sales.handleSubmit s sform sitems now newId true true).1 = SubmitOutcome.ok := by
  refine ⟨rfl, rfl, ?_, ?_⟩
  · rw [purchases_handleSubmit_ok s pform pitems now newId hpne]
  · rw [sales_handleSubmit_ok s sform sitems now newId hsne hsf]

/-- Witness for the amended C6: the empty draft is rejected with the
store untouched, while a draft whose only line has quantity -1 on the
absent product id 99 settles successfully in both handlers. -/
theorem claim6_amended_rejection_exactly_empty_witness :
    Purchases.handleSubmit demoState ⟨none, 0⟩ [] 25 111 true true
      = (.emptyItems, demoState)
    ∧ Sales.handleSubmit demoState ⟨none, 0, 0⟩ [] 25 111 true true
      = (.emptyItems, demoState)
    ∧ (Purchases.handleSubmit demoState ⟨none, 0⟩ [⟨99, -1, 10⟩] 25 111 true true).1
      = SubmitOutcome.ok
    ∧ (Sales.handleSubmit demoState ⟨none, 0, 0⟩ [⟨99, -1, 10⟩] 25 111 true true).1
      = SubmitOutcome.ok :=
  claim6_amended_rejection_exactly_empty demoState ⟨none, 0⟩ ⟨none, 0, 0⟩
    [⟨99, -1, 10⟩] [⟨99, -1, 10⟩] 25 111 true true (by decide) (by decide) (by decide)

/-- C7: The authorization decision for insert operations matches the
fixed policy matrix: inserting into suppliers or purchase orders is
permitted exactly for the admin and manager roles (in particular a
staff caller may not insert a supplier), while inserting into customers
or sales orders is permitted for any authenticated role. -/
theorem claim7_insert_policy_matrix :
    ∀ r : Role,
      canInsert r DbTable.suppliers = isAdminOrManager r
      ∧ canInsert r DbTable.purchase_orders = isAdminOrManager r
      ∧ canInsert r DbTable.customers = true
      ∧ canInsert r DbTable.sales_orders = true
      ∧ canInsert Role.staff DbTable.suppliers = false := by
  intro r
  cases r <;> decide

/-- C8 counterexample: a sales draft with subtotal 100 and discount 200
is settled as-is: the handler reports success and persists an order
whose total_amount is -100. -/
theorem claim8_counterexample :
    (Sales.handleSubmit demoState ⟨some 20, 0, 200⟩ [⟨2, 1, 100⟩] 22 108 true true).1
        = SubmitOutcome.ok
    ∧ ((Sales.handleSubmit demoState ⟨some 20, 0, 200⟩ [⟨2, 1, 100⟩] 22 108 true
          true).2.sales_orders.getLast?).map SalesOrderRow.total_amount
        = some (-100) := by
  decide

/-- C8 amended: composition neither rejects nor clamps a discount
exceeding the subtotal; the order is settled with
total_amount = subtotal - discount applied as-is, which is then
negative. -/
theorem claim8_amended_discount_applied_as_is
    (s : StoreState) (formData : Sales.Form) (orderItems : List OrderItem)
    (now newId : Nat)
    (hne : orderItems.isEmpty = false)
    (hsf : hasStockShortfall s.products orderItems = false)
    (hdisc : Sales.calculateSubtotal orderItems < formData.discount) :
    (Sales.handleSubmit s formData orderItems now newId true true).1 = SubmitOutcome.ok
    ∧ ((Sales.handleSubmit s formData orderItems now newId true true).2.sales_orders.getLast?).map
        SalesOrderRow.total_amount
      = some (Sales.calculateSubtotal orderItems - formData.discount)
    ∧ Sales.calculateSubtotal orderItems - formData.discount < 0 := by
  refine ⟨?_, ?_, by omega⟩
  · rw [sales_handleSubmit_ok s formData orderItems now newId hne hsf]
  · rw [sales_handleSubmit_ok s formData orderItems now newId hne hsf]
    show ((s.sales_orders ++ [_]).getLast?).map SalesOrderRow.total_amount = _
    rw [List.getLast?_concat]
    rfl

/-- Witness for the amended C8: subtotal 100, discount 200, settled
with persisted total -100. -/
theorem claim8_amended_discount_applied_as_is_witness :
    (Sales.handleSubmit demoState ⟨none, 0, 200⟩ [⟨2, 1, 100⟩] 22 109 true true).1
        = SubmitOutcome.ok
    ∧ ((Sales.handleSubmit demoState ⟨none, 0, 200⟩ [⟨2, 1, 100⟩] 22 109 true
          true).2.sales_orders.getLast?).map SalesOrderRow.total_amount
        = some ((100 : Int) - 200)
    ∧ (100 : Int) - 200 < 0 := by
  have h := claim8_amended_discount_applied_as_is demoState ⟨none, 0, 200⟩ [⟨2, 1, 100⟩]
    22 109 (by decide) (by decide) (by decide)
  refine ⟨h.1, ?_, by decide⟩
  rw [h.2.1]
  decide

/-- C9 counterexample: at timestamp 1700000000000 the generated order
numbers do not carry the PO / SO prefixes the claim states: the
purchase handler emits NH1700000000000 and the sales handler
BH1700000000000. -/
theorem claim9_counterexample :
    Purchases.orderNumberOf 1700000000000 ≠ "PO" ++ toString 1700000000000
    ∧ Sales.orderNumberOf 1700000000000 ≠ "SO" ++ toString 1700000000000 := by
  decide

/-- C9 amended: every generated order number has the form
NH{timestamp} for a purchase order and BH{timestamp} for a sales order;
a purchase number and a sales number never coincide.  Global
uniqueness is not guaranteed: the number depends only on the order kind
and the millisecond timestamp, so two same-kind orders generated in the
same millisecond receive the same number. -/
theorem claim9_amended_order_number_form (t u : Nat) :
    Purchases.orderNumberOf t = "NH" ++ toString t
    ∧ Sales.orderNumberOf t = "BH" ++ toString t
    ∧ Purchases.orderNumberOf t ≠ Sales.orderNumberOf u := by
  refine ⟨rfl, rfl, ?_⟩
  intro h
  have h2 := congrArg String.data h
  simp only [Purchases.orderNumberOf, Sales.orderNumberOf, String.data_append] at h2
  have hNB : 'N' = 'B' := by
    have h3 := congrArg (fun l => l.head?) h2
    simp at h3
  exact absurd hNB (by decide)

/-- C10: For every sales order settled with no customer selected
(walk-in sale), the debt-adjustment step is skipped entirely: the order
header and lines are persisted and stock is decremented, but the
customers table is left unchanged. -/
theorem claim10_walk_in_sale_customers_untouched
    (s : StoreState) (formData : Sales.Form) (orderItems : List OrderItem)
    (now newId : Nat)
    (hwalk : formData.customer_id = none)
    (hne : orderItems.isEmpty = false)
    (hsf : hasStockShortfall s.products orderItems = false) :
    (Sales.handleSubmit s formData orderItems now newId true true).1 = SubmitOutcome.ok
    ∧ (Sales.handleSubmit s formData orderItems now newId true true).2.customers = s.customers
    ∧ (Sales.handleSubmit s formData orderItems now newId true true).2.sales_orders
      = s.sales_orders ++
        [{ id := newId, order_number := Sales.orderNumberOf now,
           customer_id := none,
           total_amount := Sales.calculateTotal orderItems formData.discount,
           paid_amount := formData.paid_amount,
           discount := formData.discount, status := "completed" }]
    ∧ (Sales.handleSubmit s formData orderItems now newId true true).2.sales_order_items
      = s.sales_order_items ++
        orderItems.map (fun item =>
          ({ order_id := newId, product_id := item.product_id,
             quantity := item.quantity, unit_price := item.unit_price,
             total_price := item.quantity * item.unit_price } : OrderItemRow))
    ∧ (Sales.handleSubmit s formData orderItems now newId true true).2.products
      = salesStockLoop s.products orderItems := by
  rw [sales_handleSubmit_ok s formData orderItems now newId hne hsf, hwalk]
  exact ⟨rfl, rfl, rfl, rfl, rfl⟩

/-- Witness for C10: a walk-in sale of one unit at 500; the customers
table is untouched while header, line and stock effects all apply. -/
theorem claim10_walk_in_sale_customers_untouched_witness :
    (Sales.handleSubmit demoState ⟨none, 500, 0⟩ [⟨2, 1, 500⟩] 24 110 true true).1
        = SubmitOutcome.ok
    ∧ (Sales.handleSubmit demoState ⟨none, 500, 0⟩ [⟨2, 1, 500⟩] 24 110 true
        true).2.customers = demoState.customers
    ∧ (Sales.handleSubmit demoState ⟨none, 500, 0⟩ [⟨2, 1, 500⟩] 24 110 true
        true).2.sales_orders
      = demoState.sales_orders ++
        [{ id := 110, order_number := Sales.orderNumberOf 24,
           customer_id := none,
           total_amount := Sales.calculateTotal [⟨2, 1, 500⟩] 0,
           paid_amount := 500, discount := 0, status := "completed" }]
    ∧ (Sales.handleSubmit demoState ⟨none, 500, 0⟩ [⟨2, 1, 500⟩] 24 110 true
        true).2.sales_order_items
      = demoState.sales_order_items ++
        ([⟨2, 1, 500⟩] : List OrderItem).map (fun item =>
          ({ order_id := 110, product_id := item.product_id,
             quantity := item.quantity, unit_price := item.unit_price,
             total_price := item.quantity * item.unit_price } : OrderItemRow))
    ∧ (Sales.handleSubmit demoState ⟨none, 500, 0⟩ [⟨2, 1, 500⟩] 24 110 true
        true).2.products = salesStockLoop demoState.products [⟨2, 1, 500⟩] :=
  claim10_walk_in_sale_customers_untouched demoState ⟨none, 500, 0⟩ [⟨2, 1, 500⟩]
    24 110 rfl (by decide) (by decide)
